import Mathlib

/-!
Verification of the result-analysis and scoring pipeline of the
manufacturing-data-collection repository (`src/core/data_analyzer.py` and
`src/core/search_engine.py`).

Modelling conventions:
* Python `str` values are embedded as `List Char` (called `Str` below); the
  inputs of interest are ASCII, so `str.lower()` is embedded as the ASCII
  case map.
* Python floats are embedded as rationals (`ℚ`); `round(x, 2)` is embedded
  as `round2`.  All score arithmetic in the source stays far from exact
  `.005` ties, so the float/rational distinction and the tie-breaking mode
  of `round` do not affect any statement proved here.
* Python dicts with `.get` defaults are embedded as association lists with
  `List.lookup`/`Option.getD`; `dict.get(k, d)` becomes `(lookup k t).getD d`.
* Exceptions are embedded with `Except`; a `try/except` block becomes a
  `match` on the `Except` value.
-/

/-- A Python string, as its sequence of characters. -/
abbrev Str := List Char

/-- ASCII lower-casing of one character (`str.lower()` restricted to ASCII). -/
def lowerChar (c : Char) : Char :=
  if 'A' ≤ c && c ≤ 'Z' then Char.ofNat (c.toNat + 32) else c

/-- `s.lower()` for ASCII strings. -/
def lower (s : Str) : Str := s.map lowerChar

/-- The character list of a string literal (for writing `Str` constants). -/
def strOf (s : String) : Str := s.data

/-- Python's `needle in haystack`: contiguous-substring containment. -/
def containsSub (needle : Str) : Str → Bool
  | [] => needle.isEmpty
  | c :: t => needle.isPrefixOf (c :: t) || containsSub needle t

/-- Python's `any(word in text for word in words)`. -/
def anyWord (words : List Str) (text : Str) : Bool :=
  words.any (fun w => containsSub w text)

/-- `DocumentType` enum of `data_analyzer.py`. -/
inductive DocumentType where
  | PDF | EXCEL | WEB_PAGE | API | DATABASE | DIRECTORY | UNKNOWN
deriving DecidableEq, BEq, Repr

/-- `ExtractionMethod` enum of `data_analyzer.py`. -/
inductive ExtractionMethod where
  | MANUAL_DOWNLOAD | WEB_SCRAPING | API_CALL | FORM_SUBMISSION
  | PAID_ACCESS | REGISTRATION_REQUIRED | NOT_ACCESSIBLE
deriving DecidableEq, BEq, Repr

/-- `round(x, 2)`: round to two decimal places. -/
def round2 (x : ℚ) : ℚ := (⌊x * 100 + 1/2⌋ : ℚ) / 100

/-- `DataSourceAnalyzer._get_domain_keywords`. -/
def domain_keywords : List (Str × List Str) :=
  [ (strOf "Chemical_Petrochemical",
      [strOf "chemical", strOf "petrochemical", strOf "pharmaceutical",
       strOf "polymer", strOf "fertilizer", strOf "refinery", strOf "chemicals",
       strOf "pharma", strOf "coating", strOf "paint", strOf "resin",
       strOf "catalyst", strOf "specialty chemicals", strOf "fine chemicals",
       strOf "bulk chemicals", strOf "agrochemicals"]),
    (strOf "Shipping",
      [strOf "shipping", strOf "logistics", strOf "maritime", strOf "port",
       strOf "cargo", strOf "freight", strOf "vessel", strOf "container",
       strOf "marine", strOf "transport", strOf "supply chain",
       strOf "warehousing", strOf "forwarding", strOf "customs",
       strOf "import", strOf "export", strOf "fleet"]),
    (strOf "Sports_Equipment",
      [strOf "sports", strOf "fitness", strOf "athletics", strOf "equipment",
       strOf "gear", strOf "recreation", strOf "sporting goods",
       strOf "exercise", strOf "outdoor", strOf "games", strOf "gymnasium",
       strOf "playground", strOf "cricket", strOf "football",
       strOf "badminton", strOf "tennis", strOf "hockey"]),
    (strOf "EdTech",
      [strOf "edtech", strOf "education", strOf "learning", strOf "e-learning",
       strOf "digital education", strOf "educational technology",
       strOf "online learning", strOf "training", strOf "lms", strOf "mooc",
       strOf "virtual classroom", strOf "educational software",
       strOf "learning management"]) ]

/-- The `"high_quality"` list of `DataSourceAnalyzer._get_quality_indicators`. -/
def quality_high : List Str :=
  [strOf "database", strOf "directory", strOf "list", strOf "registry",
   strOf "association", strOf "government", strOf "official",
   strOf "certified", strOf "verified", strOf "comprehensive"]

/-- The `"contact_data"` list of `DataSourceAnalyzer._get_quality_indicators`. -/
def contact_data : List Str :=
  [strOf "email", strOf "phone", strOf "contact", strOf "address",
   strOf "details", strOf "directory"]

/-- `f"{url} {title} {snippet}".lower()` as computed in
`_determine_document_type` and `_determine_extraction_method`. -/
def fullText (url title snippet : Str) : Str :=
  lower (url ++ [' '] ++ title ++ [' '] ++ snippet)

/-- `f"{title} {snippet}".lower()` as computed in `_calculate_relevance`,
`_estimate_data_size`, `_extract_metadata` and the other helpers. -/
def tsText (title snippet : Str) : Str :=
  lower (title ++ [' '] ++ snippet)

/-- `DataSourceAnalyzer._determine_document_type`. -/
def determineDocumentType (url title snippet : Str) : DocumentType :=
  let text := fullText url title snippet
  if anyWord [strOf ".pdf", strOf "pdf"] text then .PDF
  else if anyWord [strOf ".xlsx", strOf ".xls", strOf "excel"] text then .EXCEL
  else if anyWord [strOf "api", strOf "json", strOf "xml"] text then .API
  else if anyWord [strOf "database", strOf "db"] text then .DATABASE
  else if anyWord [strOf "directory", strOf "listing"] text then .DIRECTORY
  else .WEB_PAGE

/-- The keyword term of `_calculate_relevance`: fraction of the target
domain's keyword list found in the text, clipped at `1.0`; a fixed neutral
`0.5` when the domain has no predefined keyword list. -/
def keywordTerm (text : Str) (target : Str) : ℚ :=
  let keywords := (List.lookup target domain_keywords).getD []
  if keywords.isEmpty then 0.5
  else
    let keyword_matches := keywords.countP (fun k => containsSub k text)
    min ((keyword_matches : ℚ) / (keywords.length : ℚ)) 1

/-- The quality term of `_calculate_relevance`: high-quality indicator
matches, divided by 3, clipped at `1.0`. -/
def qualityTerm (text : Str) : ℚ :=
  let quality_matches := quality_high.countP (fun k => containsSub k text)
  min ((quality_matches : ℚ) / 3) 1

/-- The India-context term of `_calculate_relevance`. -/
def indiaTerm (text : Str) : ℚ :=
  if anyWord [strOf "india", strOf "indian", strOf "bharath", strOf "bharat"]
      text then 1 else 0.3

/-- The weighted sum inside `_calculate_relevance`, before rounding. -/
def relevanceRaw (title snippet target : Str) : ℚ :=
  let text := tsText title snippet
  keywordTerm text target * 0.5 + qualityTerm text * 0.3 + indiaTerm text * 0.2

/-- `DataSourceAnalyzer._calculate_relevance`. -/
def calculateRelevance (title snippet target : Str) : ℚ :=
  round2 (relevanceRaw title snippet target)

/-- Maximal digit runs of a text, as numbers: `re.findall(r'\d+', text)`
followed by `int(...)`.  The accumulator holds the digit run in progress. -/
def digitRunsAux : List Char → Option Nat → List Nat
  | [], none => []
  | [], some n => [n]
  | c :: rest, acc =>
    if c.isDigit then
      digitRunsAux rest (some ((acc.getD 0) * 10 + (c.toNat - 48)))
    else
      match acc with
      | none => digitRunsAux rest none
      | some n => n :: digitRunsAux rest none

/-- All maximal digit runs of a text, as numbers. -/
def digitRuns (text : Str) : List Nat := digitRunsAux text none

/-- The numbers of `_estimate_data_size`: digit runs of the lowered
`title snippet` text, kept when between 10 and 100000. -/
def qualifyingNumbers (title snippet : Str) : List Nat :=
  (digitRuns (tsText title snippet)).filter (fun n => 10 ≤ n && n ≤ 100000)

/-- The `base_estimates` table of `_estimate_data_size`. -/
def baseEstimates : DocumentType → Nat × Nat
  | .PDF => (100, 8)
  | .EXCEL => (500, 12)
  | .WEB_PAGE => (50, 6)
  | .API => (1000, 15)
  | .DATABASE => (2000, 20)
  | .DIRECTORY => (300, 10)
  | .UNKNOWN => (50, 5)

/-- `DataSourceAnalyzer._estimate_data_size`.  The float steps
`int(base_fields * 1.5)` and `int(base_rows * 0.7)` are embedded as
`* 3 / 2` and `* 7 / 10` in `Nat`: on every value reachable from the base
table the float product is exact and truncation coincides with `Nat`
floor division. -/
def estimateDataSize (title snippet : Str) (docType : DocumentType) :
    Nat × Nat :=
  let text := tsText title snippet
  let numbers := (digitRuns text).filter (fun n => 10 ≤ n && n ≤ 100000)
  let base := baseEstimates docType
  let rows0 := base.1
  let fields0 := base.2
  let rows1 :=
    if anyWord [strOf "comprehensive", strOf "complete", strOf "all",
        strOf "entire", strOf "full"] text then rows0 * 3 else rows0
  let fields1 :=
    if anyWord [strOf "comprehensive", strOf "complete", strOf "all",
        strOf "entire", strOf "full"] text then fields0 * 3 / 2 else fields0
  let rows2 :=
    if anyWord [strOf "top", strOf "major", strOf "leading"] text then
      min rows1 200 else rows1
  let rows3 :=
    if anyWord [strOf "gujarat", strOf "maharashtra", strOf "tamil nadu",
        strOf "karnataka"] text then rows2 * 7 / 10 else rows2
  let rows4 :=
    match numbers with
    | [] => rows3
    | n :: rest => rest.foldl Nat.max n
  (rows4, fields1)

/-- `DataSourceAnalyzer._determine_extraction_method`. -/
def determineExtractionMethod (url title snippet : Str)
    (docType : DocumentType) : ExtractionMethod :=
  let text := fullText url title snippet
  if anyWord [strOf "login", strOf "register", strOf "subscription",
      strOf "premium"] text then .REGISTRATION_REQUIRED
  else if anyWord [strOf "paid", strOf "purchase", strOf "buy",
      strOf "price"] text then .PAID_ACCESS
  else if docType = .API || containsSub (strOf "api") text then .API_CALL
  else if docType = .PDF || docType = .EXCEL then .MANUAL_DOWNLOAD
  else if docType = .WEB_PAGE || docType = .DIRECTORY
      || docType = .DATABASE then .WEB_SCRAPING
  else .WEB_SCRAPING

/-- First match of the regex `20(2[0-9]|1[0-9])` in a text
(`re.search` in `_extract_metadata`). -/
def findYear : List Char → Option Str
  | a :: b :: c :: d :: rest =>
    if a = '2' && b = '0' && (c = '2' || c = '1') && d.isDigit then
      some [a, b, c, d]
    else findYear (b :: c :: d :: rest)
  | _ => none

/-- The text after the first occurrence of `needle`, when `needle` occurs. -/
def afterSub (needle : Str) : Str → Option Str
  | [] => if needle.isEmpty then some [] else none
  | c :: t =>
    if needle.isPrefixOf (c :: t) then some ((c :: t).drop needle.length)
    else afterSub needle t

/-- `urlparse(url).netloc`: the text after the first `//`, up to the next
`/`, `?` or `#`; empty when the URL has no `//`. -/
def netloc (url : Str) : Str :=
  ((afterSub (strOf "//") url).getD []).takeWhile
    (fun c => !(c = '/' || c = '?' || c = '#'))

/-- Python's `str.replace`: replace every (non-overlapping, leftmost-first)
occurrence of `needle` by `repl`. -/
def replaceSub (needle repl : Str) : Str → Str
  | [] => []
  | c :: t =>
    if _h : needle.isPrefixOf (c :: t) = true ∧ 0 < needle.length then
      repl ++ replaceSub needle repl ((c :: t).drop needle.length)
    else
      c :: replaceSub needle repl t
termination_by l => l.length
decreasing_by
· simp only [List.length_drop, List.length_cons]
  omega
· simp only [List.length_cons]
  omega

/-- The freshness classification of `_extract_metadata` (a constant tag,
kept as a Lean `String`). -/
def freshnessOf (text : Str) : String :=
  if anyWord [strOf "2024", strOf "2025", strOf "latest", strOf "current"]
      text then "Recent"
  else if anyWord [strOf "2022", strOf "2023"] text then "Moderate"
  else if anyWord [strOf "2020", strOf "2021"] text then "Old"
  else "Unknown"

/-- The organization of `_extract_metadata`: the URL host with `www.`,
`.com`, `.org` and `.in` occurrences removed. -/
def organizationOf (url : Str) : Str :=
  replaceSub (strOf ".in") []
    (replaceSub (strOf ".org") []
      (replaceSub (strOf ".com") []
        (replaceSub (strOf "www.") [] (netloc url))))

/-- `DataSourceAnalyzer._has_contact_fields`. -/
def hasContactFields (title snippet : Str) : Bool :=
  anyWord contact_data (tsText title snippet)

/-- `DataSourceAnalyzer._requires_payment`. -/
def requiresPayment (title snippet : Str) : Bool :=
  anyWord [strOf "paid", strOf "premium", strOf "subscription",
    strOf "purchase", strOf "buy", strOf "price"] (tsText title snippet)

/-- `DataSourceAnalyzer._generate_description`. -/
def generateDescription (title snippet : Str) : Str :=
  let text := tsText title snippet
  let key_words :=
    (if containsSub (strOf "directory") text then
      [strOf "Company Directory"] else []) ++
    (if containsSub (strOf "list") text then [strOf "Company List"] else []) ++
    (if containsSub (strOf "database") text then [strOf "Database"] else []) ++
    (if containsSub (strOf "association") text then
      [strOf "Industry Association"] else []) ++
    (if containsSub (strOf "export") text then
      [strOf "Export Companies"] else [])
  let key_words :=
    if key_words.isEmpty then [strOf "Company Data"] else key_words
  List.intercalate (strOf " | ") key_words

/-- The `type_score` dict of `_calculate_confidence`. -/
def type_score : List (DocumentType × ℚ) :=
  [ (.DATABASE, 0.9), (.DIRECTORY, 0.8), (.EXCEL, 0.85), (.PDF, 0.7),
    (.API, 0.95), (.WEB_PAGE, 0.6), (.UNKNOWN, 0.3) ]

/-- The `method_score` dict of `_calculate_confidence`. -/
def method_score : List (ExtractionMethod × ℚ) :=
  [ (.API_CALL, 0.9), (.MANUAL_DOWNLOAD, 0.8), (.WEB_SCRAPING, 0.7),
    (.REGISTRATION_REQUIRED, 0.5), (.PAID_ACCESS, 0.4),
    (.NOT_ACCESSIBLE, 0.1) ]

/-- `DataSourceAnalyzer._calculate_confidence`: both dict lookups use a
`.get(key, 0.5)` default. -/
def calculateConfidence (docType : DocumentType) (relevance : ℚ)
    (em : ExtractionMethod) : ℚ :=
  round2 ((List.lookup docType type_score).getD 0.5 * 0.4 +
    relevance * 0.4 +
    (List.lookup em method_score).getD 0.5 * 0.2)

/-- The `DataSourceAnalysis` dataclass. -/
structure DataSourceAnalysis where
  url : Str
  title : Str
  domain : Str
  document_type : DocumentType
  relevance_score : ℚ
  estimated_rows : Nat
  estimated_fields : Nat
  extraction_method : ExtractionMethod
  data_description : Str
  contact_fields_available : Bool
  year_published : Option Str
  source_organization : Str
  requires_payment : Bool
  data_freshness : String
  confidence_score : ℚ
deriving DecidableEq, Repr

/-- A raw search hit (a Python dict); absent keys are `none`, and the
analyzer substitutes `''` for them via `.get(key, '')`. -/
structure RawHit where
  link : Option Str
  title : Option Str
  snippet : Option Str
deriving DecidableEq, Repr

/-- `DataSourceAnalyzer.analyze_search_result`. -/
def analyzeSearchResult (result : RawHit) (target_domain : Str) :
    DataSourceAnalysis :=
  let url := result.link.getD []
  let title := result.title.getD []
  let snippet := result.snippet.getD []
  let doc_type := determineDocumentType url title snippet
  let relevance := calculateRelevance title snippet target_domain
  let size := estimateDataSize title snippet doc_type
  let extraction_method := determineExtractionMethod url title snippet doc_type
  let metaText := tsText title snippet
  let confidence := calculateConfidence doc_type relevance extraction_method
  { url := url
    title := title
    domain := netloc url
    document_type := doc_type
    relevance_score := relevance
    estimated_rows := size.1
    estimated_fields := size.2
    extraction_method := extraction_method
    data_description := generateDescription title snippet
    contact_fields_available := hasContactFields title snippet
    year_published := findYear metaText
    source_organization := organizationOf url
    requires_payment := requiresPayment title snippet
    data_freshness := freshnessOf metaText
    confidence_score := confidence }

/-- The descending-confidence ordering used by
`SearchEngine._filter_results`: `a` may come before `b`. -/
def confGE (a b : DataSourceAnalysis) : Prop :=
  b.confidence_score ≤ a.confidence_score

instance : DecidableRel confGE := fun a b =>
  inferInstanceAs (Decidable (b.confidence_score ≤ a.confidence_score))

instance : IsTotal DataSourceAnalysis confGE :=
  ⟨fun a b => le_total b.confidence_score a.confidence_score⟩

instance : IsTrans DataSourceAnalysis confGE :=
  ⟨fun _ _ _ hab hbc => le_trans hbc hab⟩

/-- The relevance threshold stage of `_filter_results`
(`min_relevance = 0.3`). -/
def minRelevanceFilter (results : List DataSourceAnalysis) :
    List DataSourceAnalysis :=
  results.filter (fun r => decide ((0.3 : ℚ) ≤ r.relevance_score))

/-- `filtered.sort(key=lambda x: x.confidence_score, reverse=True)`:
Python's sort is stable, so it is embedded as the (unique) stable
descending sort, here insertion sort under `confGE`. -/
def sortByConfDesc (results : List DataSourceAnalysis) :
    List DataSourceAnalysis :=
  List.insertionSort confGE results

/-- The domain-deduplication loop of `_filter_results`: keep a record
only when its `domain` was not seen before. -/
def dedupByDomain : List DataSourceAnalysis → List Str →
    List DataSourceAnalysis
  | [], _ => []
  | r :: rs, seen =>
    if r.domain ∈ seen then dedupByDomain rs seen
    else r :: dedupByDomain rs (r.domain :: seen)

/-- `SearchEngine._filter_results`: threshold, then stable descending
sort by confidence, then domain deduplication. -/
def filterResults (results : List DataSourceAnalysis) :
    List DataSourceAnalysis :=
  dedupByDomain (sortByConfDesc (minRelevanceFilter results)) []

/-- `RESULTS_PER_QUERY` from `config/config.py`. -/
def RESULTS_PER_QUERY : Nat := 15

/-- The provider response consumed by `search_query`: `none` models a
falsy/`organic_results`-free response; `total_time_taken` and
`total_results` are the nested `search_metadata` fields. -/
structure SearchResults where
  organic_results : List RawHit
  total_time_taken : ℚ
  total_results : Nat
deriving Repr

/-- One entry of a batch report (the dict built by `search_query` /
`_create_empty_result` / `_create_error_result`, possibly updated by
`batch_search`).  The success path of `search_query` stores no `status`
key, modelled as `none`. -/
structure QueryResult where
  query : Str
  target_domain : Str
  total_results : Nat
  analyzed_results : Nat
  relevant_results : Nat
  results : List DataSourceAnalysis
  search_time : ℚ
  results_available : Nat
  status : Option String
  error_message : Option Str
  query_id : Option Str
  prompt_template : Option Str
  query_type : Option Str

/-- `SearchEngine._create_empty_result`. -/
def createEmptyResult (query target_domain : Str) : QueryResult :=
  { query := query, target_domain := target_domain, total_results := 0,
    analyzed_results := 0, relevant_results := 0, results := [],
    search_time := 0, results_available := 0, status := some "no_results",
    error_message := none, query_id := none, prompt_template := none,
    query_type := none }

/-- `SearchEngine._create_error_result`. -/
def createErrorResult (query target_domain error_msg : Str) : QueryResult :=
  { query := query, target_domain := target_domain, total_results := 0,
    analyzed_results := 0, relevant_results := 0, results := [],
    search_time := 0, results_available := 0, status := some "error",
    error_message := some error_msg, query_id := none,
    prompt_template := none, query_type := none }

/-- `SearchEngine.search_query`, parameterized by the provider call
`exec` (the `_execute_search` boundary: raises → `Except.error`, falsy or
`organic_results`-free response → `Except.ok none`).  The body's
`try/except` is the outer `match`; the rate-limit sleep and the search
counter have no effect on the returned data and are omitted. -/
def searchQuery (exec : Str → Str → Except Str (Option SearchResults))
    (query target_domain location : Str) : QueryResult :=
  match exec query location with
  | .error e => createErrorResult query target_domain e
  | .ok none => createEmptyResult query target_domain
  | .ok (some sr) =>
    let analyzed := (sr.organic_results.take RESULTS_PER_QUERY).map
      (fun r => analyzeSearchResult r target_domain)
    let filtered := filterResults analyzed
    { query := query, target_domain := target_domain,
      total_results := sr.organic_results.length,
      analyzed_results := analyzed.length,
      relevant_results := filtered.length, results := filtered,
      search_time := sr.total_time_taken,
      results_available := sr.total_results, status := none,
      error_message := none, query_id := none, prompt_template := none,
      query_type := none }

/-- A well-formed query descriptor consumed by `batch_search` (all four
keys present). -/
structure QueryInfo where
  query_id : Str
  search_query : Str
  prompt_template : Str
  query_type : Str

/-- `SearchEngine.batch_search`: each query is processed with
`search_query` (which already converts provider failures into an
`status="error"` entry) and tagged with its descriptor fields; for
well-formed descriptors every key access in the loop body is total, so
the loop's own `except` arm is unreachable and the batch is a `map`. -/
def batchSearch (exec : Str → Str → Except Str (Option SearchResults))
    (queries : List QueryInfo) (target_domain : Str) : List QueryResult :=
  queries.map (fun qi =>
    let r := searchQuery exec qi.search_query target_domain (strOf "India")
    { r with
      query_id := some qi.query_id
      prompt_template := some qi.prompt_template
      query_type := some qi.query_type })

/-- The raw hit of the spec's end-to-end example. -/
def exampleHit : RawHit :=
  { link := some (strOf "https://x.gov.in/directory.pdf")
    title := some (strOf "Comprehensive Chemical Companies Directory India 2024")
    snippet := some (strOf "List of 1200 chemical manufacturers") }

/-- The target domain of the spec's end-to-end example. -/
def chemDomain : Str := strOf "Chemical_Petrochemical"

/-- Modelled from the claim's words: the per-type base-confidence table,
with an Unknown document type contributing the default base `0.5`. -/
def specTypeBaseClaim : DocumentType → ℚ
  | .DATABASE => 0.9
  | .DIRECTORY => 0.8
  | .EXCEL => 0.85
  | .PDF => 0.7
  | .API => 0.95
  | .WEB_PAGE => 0.6
  | .UNKNOWN => 0.5

/-- Modelled from the claim's words: the per-extraction-method
base-confidence table, with an unknown method (`FormSubmission`, absent
from the fixed table) contributing the default base `0.5`. -/
def specMethodBaseClaim : ExtractionMethod → ℚ
  | .API_CALL => 0.9
  | .MANUAL_DOWNLOAD => 0.8
  | .WEB_SCRAPING => 0.7
  | .REGISTRATION_REQUIRED => 0.5
  | .PAID_ACCESS => 0.4
  | .NOT_ACCESSIBLE => 0.1
  | .FORM_SUBMISSION => 0.5

/-- The confidence formula exactly as the claim states it. -/
def specConfidenceClaim (dt : DocumentType) (rel : ℚ)
    (em : ExtractionMethod) : ℚ :=
  round2 (specTypeBaseClaim dt * 0.4 + rel * 0.4 + specMethodBaseClaim em * 0.2)

/-- Modelled from the claim's words, amended: the per-type table covers
every document type; `Unknown` contributes its fixed-table base `0.3`. -/
def specTypeBaseAmended : DocumentType → ℚ
  | .DATABASE => 0.9
  | .DIRECTORY => 0.8
  | .EXCEL => 0.85
  | .PDF => 0.7
  | .API => 0.95
  | .WEB_PAGE => 0.6
  | .UNKNOWN => 0.3

/-- A threshold-passing record with low confidence, first in input order
(used to exhibit the deduplication order). -/
def recA : DataSourceAnalysis :=
  { url := strOf "https://dup.com/a", title := strOf "A",
    domain := strOf "dup.com", document_type := .WEB_PAGE,
    relevance_score := 1, estimated_rows := 50, estimated_fields := 6,
    extraction_method := .WEB_SCRAPING,
    data_description := strOf "Company Data",
    contact_fields_available := false, year_published := none,
    source_organization := strOf "dup", requires_payment := false,
    data_freshness := "Unknown", confidence_score := 0 }

/-- A record with the same domain as `recA` but higher confidence,
second in input order. -/
def recB : DataSourceAnalysis :=
  { url := strOf "https://dup.com/b", title := strOf "B",
    domain := strOf "dup.com", document_type := .WEB_PAGE,
    relevance_score := 1, estimated_rows := 50, estimated_fields := 6,
    extraction_method := .WEB_SCRAPING,
    data_description := strOf "Company Data",
    contact_fields_available := false, year_published := none,
    source_organization := strOf "dup", requires_payment := false,
    data_freshness := "Unknown", confidence_score := 1 }

/-- A well-formed query descriptor whose provider call succeeds. -/
def qi1 : QueryInfo :=
  { query_id := strOf "Q1", search_query := strOf "alpha",
    prompt_template := strOf "t", query_type := strOf "general" }

/-- A well-formed query descriptor whose provider call raises. -/
def qi2 : QueryInfo :=
  { query_id := strOf "Q2", search_query := strOf "boom",
    prompt_template := strOf "t", query_type := strOf "general" }

/-- A provider that raises a transport error exactly on the query
`boom` and returns an empty response otherwise. -/
def execW : Str → Str → Except Str (Option SearchResults) :=
  fun q _ =>
    if q = strOf "boom" then .error (strOf "transport down") else .ok none

/-! ### General lemmas about `round2` -/

/-- `round2` of a value already of the form `n/100` is that value. -/
theorem round2_intCast_div (n : ℤ) : round2 ((n : ℚ) / 100) = (n : ℚ) / 100 := by
  unfold round2
  have h1 : (n : ℚ) / 100 * 100 + 1/2 = (n : ℚ) + 1/2 := by ring
  rw [h1]
  have h2 : ⌊(n : ℚ) + 1/2⌋ = n := by
    rw [Int.floor_eq_iff]
    constructor
    · linarith
    · linarith
  rw [h2]

/-- `round2` is idempotent. -/
theorem round2_idem (x : ℚ) : round2 (round2 x) = round2 x :=
  round2_intCast_div ⌊x * 100 + 1/2⌋

/-- `round2` preserves nonnegativity. -/
theorem round2_nonneg {x : ℚ} (hx : 0 ≤ x) : 0 ≤ round2 x := by
  unfold round2
  have h : (0 : ℤ) ≤ ⌊x * 100 + 1/2⌋ := by
    apply Int.floor_nonneg.mpr
    linarith
  have h2 : (0 : ℚ) ≤ (⌊x * 100 + 1/2⌋ : ℚ) := by exact_mod_cast h
  exact div_nonneg h2 (by norm_num)

/-- `round2` of a value at most `1` stays at most `1`. -/
theorem round2_le_one {x : ℚ} (hx : x ≤ 1) : round2 x ≤ 1 := by
  unfold round2
  have h : ⌊x * 100 + 1/2⌋ ≤ 100 := by
    have : ⌊x * 100 + 1/2⌋ ≤ ⌊(201/2 : ℚ)⌋ := by
      apply Int.floor_le_floor
      linarith
    have h201 : ⌊(201/2 : ℚ)⌋ = 100 := by norm_num
    omega
  have h2 : (⌊x * 100 + 1/2⌋ : ℚ) ≤ 100 := by exact_mod_cast h
  linarith

/-! ### C1: the spec's end-to-end example -/

/-- C1 counterexample: on the spec's end-to-end example the analyzer's
`estimated_rows` is `2024`, not the claimed `1200` — the largest-number
override picks the year `2024` from the title, which is larger than `1200`
and also lies in the `[10, 100000]` window. -/
theorem analyze_example_rows_ne_1200 :
    (analyzeSearchResult exampleHit chemDomain).estimated_rows = 2024 ∧
    (analyzeSearchResult exampleHit chemDomain).estimated_rows ≠ 1200 := by
  decide

/-- C1 (amended): for the raw hit with url
`https://x.gov.in/directory.pdf`, title
`Comprehensive Chemical Companies Directory India 2024` and snippet
`List of 1200 chemical manufacturers`, analyzed against
`Chemical_Petrochemical`, `analyze_search_result` returns
`document_type = PDF`, `estimated_rows = 2024` (the largest qualifying
number in the text — the year `2024` — wins the explicit-number
override), `data_freshness = "Recent"` and
`extraction_method = ManualDownload`. -/
theorem analyze_example_fields :
    (analyzeSearchResult exampleHit chemDomain).document_type = .PDF ∧
    (analyzeSearchResult exampleHit chemDomain).estimated_rows = 2024 ∧
    (analyzeSearchResult exampleHit chemDomain).data_freshness = "Recent" ∧
    (analyzeSearchResult exampleHit chemDomain).extraction_method =
      .MANUAL_DOWNLOAD := by
  decide

/-! ### C3: the confidence formula -/

/-- C3 counterexample: for an Unknown document type the code's fixed table
supplies `0.3` (the `type_score` dict has an explicit `UNKNOWN: 0.3`
entry, so the `.get` default `0.5` never applies to document types), and
the code's confidence `0.22` differs from the claim's `0.3` at
`(UNKNOWN, relevance 0, FormSubmission)`. -/
theorem confidence_unknown_type_counterexample :
    calculateConfidence .UNKNOWN 0 .FORM_SUBMISSION = 0.22 ∧
    specConfidenceClaim .UNKNOWN 0 .FORM_SUBMISSION = 0.3 ∧
    calculateConfidence .UNKNOWN 0 .FORM_SUBMISSION ≠
      specConfidenceClaim .UNKNOWN 0 .FORM_SUBMISSION := by
  have ht : (List.lookup DocumentType.UNKNOWN type_score).getD 0.5 =
      (0.3 : ℚ) := rfl
  have hm : (List.lookup ExtractionMethod.FORM_SUBMISSION
      method_score).getD 0.5 = (0.5 : ℚ) := rfl
  unfold calculateConfidence specConfidenceClaim
  rw [ht, hm]
  norm_num [specTypeBaseClaim, specMethodBaseClaim, round2]

/-- C3 (amended): for every document type, relevance score and extraction
method, the confidence equals
`round(0.4·typeBase + 0.4·relevance + 0.2·methodBase, 2)`, where the
per-type table maps API to 0.95, Database to 0.9, WebPage to 0.6 and
Unknown to its fixed-table base 0.3 (the type table covers every type, so
the 0.5 default never applies to it), and an extraction method missing
from the method table (FormSubmission) contributes the default base 0.5. -/
theorem confidence_eq_amended_table (dt : DocumentType) (rel : ℚ)
    (em : ExtractionMethod) :
    calculateConfidence dt rel em =
      round2 (specTypeBaseAmended dt * 0.4 + rel * 0.4 +
        specMethodBaseClaim em * 0.2) := by
  cases dt <;> cases em <;> rfl

/-! ### C6: access-restriction words dominate extraction-method choice -/

/-- C6: a hit whose combined url+title+snippet text contains an
access-restriction word (login, register, subscription, premium) gets
extraction method `RegistrationRequired`, whatever its document type. -/
theorem access_restriction_precedes_type (url title snippet : Str)
    (dt : DocumentType)
    (h : anyWord [strOf "login", strOf "register", strOf "subscription",
      strOf "premium"] (fullText url title snippet) = true) :
    determineExtractionMethod url title snippet dt =
      .REGISTRATION_REQUIRED := by
  simp only [determineExtractionMethod, h, if_true]

/-- C6 witness: a concrete hit containing both `login` and `pdf`
classifies as `RegistrationRequired`, not `ManualDownload`, even though
its document type is `PDF`. -/
theorem access_restriction_precedes_type_witness :
    determineDocumentType (strOf "https://ex.com/list.pdf")
      (strOf "Members Directory - login required") (strOf "") = .PDF ∧
    anyWord [strOf "login", strOf "register", strOf "subscription",
      strOf "premium"]
      (fullText (strOf "https://ex.com/list.pdf")
        (strOf "Members Directory - login required") (strOf "")) = true ∧
    determineExtractionMethod (strOf "https://ex.com/list.pdf")
      (strOf "Members Directory - login required") (strOf "")
      (determineDocumentType (strOf "https://ex.com/list.pdf")
        (strOf "Members Directory - login required") (strOf "")) =
      .REGISTRATION_REQUIRED :=
  ⟨by decide, by decide,
    access_restriction_precedes_type _ _ _ _ (by decide)⟩

/-! ### C10: reachable enum values of the analyzer -/

/-- The document-type classifier only ever returns one of the six listed
types; its else-branch is `WebPage`, so `Unknown` is unreachable. -/
theorem docType_enum (u t s : Str) :
    determineDocumentType u t s ∈
      ([.PDF, .EXCEL, .API, .DATABASE, .DIRECTORY, .WEB_PAGE] :
        List DocumentType) ∧
    determineDocumentType u t s ≠ .UNKNOWN := by
  simp only [determineDocumentType]
  repeat' split
  all_goals simp

/-- The extraction-method classifier only ever returns one of the five
listed methods; `FormSubmission` and `NotAccessible` are unreachable. -/
theorem extractionMethod_enum (u t s : Str) (dt : DocumentType) :
    determineExtractionMethod u t s dt ∈
      ([.REGISTRATION_REQUIRED, .PAID_ACCESS, .API_CALL, .MANUAL_DOWNLOAD,
        .WEB_SCRAPING] : List ExtractionMethod) ∧
    determineExtractionMethod u t s dt ≠ .FORM_SUBMISSION ∧
    determineExtractionMethod u t s dt ≠ .NOT_ACCESSIBLE := by
  simp only [determineExtractionMethod]
  repeat' split
  all_goals simp

/-- C10: every record produced by the analyzer has a `document_type`
among PDF, Excel, API, Database, Directory, WebPage — never Unknown —
and an `extraction_method` among RegistrationRequired, PaidAccess,
ApiCall, ManualDownload, WebScraping — never FormSubmission or
NotAccessible. -/
theorem analyzer_enum_range (hit : RawHit) (target : Str) :
    ((analyzeSearchResult hit target).document_type ∈
        ([.PDF, .EXCEL, .API, .DATABASE, .DIRECTORY, .WEB_PAGE] :
          List DocumentType) ∧
      (analyzeSearchResult hit target).document_type ≠ .UNKNOWN) ∧
    ((analyzeSearchResult hit target).extraction_method ∈
        ([.REGISTRATION_REQUIRED, .PAID_ACCESS, .API_CALL,
          .MANUAL_DOWNLOAD, .WEB_SCRAPING] : List ExtractionMethod) ∧
      (analyzeSearchResult hit target).extraction_method ≠
        .FORM_SUBMISSION ∧
      (analyzeSearchResult hit target).extraction_method ≠
        .NOT_ACCESSIBLE) := by
  have hd : (analyzeSearchResult hit target).document_type =
      determineDocumentType (hit.link.getD []) (hit.title.getD [])
        (hit.snippet.getD []) := rfl
  have he : (analyzeSearchResult hit target).extraction_method =
      determineExtractionMethod (hit.link.getD []) (hit.title.getD [])
        (hit.snippet.getD [])
        (determineDocumentType (hit.link.getD []) (hit.title.getD [])
          (hit.snippet.getD [])) := rfl
  rw [hd, he]
  exact ⟨docType_enum _ _ _, extractionMethod_enum _ _ _ _⟩

/-! ### C4: the explicit-number override -/

/-- Folding `Nat.max` over a list whose members are all at most `N`, from
an accumulator at most `N`, with `N` present, yields `N`. -/
theorem foldl_max_eq : ∀ (l : List Nat) (a N : Nat), (N = a ∨ N ∈ l) →
    a ≤ N → (∀ m ∈ l, m ≤ N) → l.foldl Nat.max a = N := by
  intro l
  induction l with
  | nil =>
    intro a N hmem ha _
    simp only [List.foldl_nil]
    simp only [List.not_mem_nil, or_false] at hmem
    omega
  | cons b t ih =>
    intro a N hmem ha hall
    simp only [List.foldl_cons]
    have hb : b ≤ N := hall b (List.mem_cons_self _ _)
    apply ih (Nat.max a b) N ?_ (Nat.max_le.mpr ⟨ha, hb⟩) ?_
    · rcases hmem with h | h
      · left
        rw [h]
        exact (Nat.max_eq_left (h ▸ hb)).symm
      · rcases List.mem_cons.mp h with h | h
        · left
          rw [h]
          exact (Nat.max_eq_right (h ▸ ha)).symm
        · right
          exact h
    · exact fun m hm => hall m (List.mem_cons_of_mem _ hm)

/-- C4: whenever the title+snippet text contains a qualifying standalone
number `N` (`10 ≤ N ≤ 100000`) and no larger qualifying number, the
estimated row count equals `N`: the override is applied last and replaces
the base/multiplier results, for every document type. -/
theorem estimated_rows_override (title snippet : Str) (dt : DocumentType)
    (N : Nat) (hmem : N ∈ qualifyingNumbers title snippet)
    (hmax : ∀ m ∈ qualifyingNumbers title snippet, m ≤ N) :
    (estimateDataSize title snippet dt).1 = N := by
  unfold qualifyingNumbers at hmem hmax
  simp only [estimateDataSize]
  cases hn : (digitRuns (tsText title snippet)).filter
      (fun n => 10 ≤ n && n ≤ 100000) with
  | nil =>
    rw [hn] at hmem
    simp at hmem
  | cons n rest =>
    rw [hn] at hmem hmax
    simp only [hn]
    apply foldl_max_eq rest n N ?_ (hmax n (List.mem_cons_self _ _))
      (fun m hm => hmax m (List.mem_cons_of_mem _ hm))
    rcases List.mem_cons.mp hmem with h | h
    · exact Or.inl h
    · exact Or.inr h

/-- C4 witness: a concrete hit whose text holds the single qualifying
number 77; the base estimate (PDF, tripled by "comprehensive") would be
300, but the override makes it 77. -/
theorem estimated_rows_override_witness :
    77 ∈ qualifyingNumbers
      (strOf "Comprehensive supplier list of 77 firms") (strOf "") ∧
    (∀ m ∈ qualifyingNumbers
      (strOf "Comprehensive supplier list of 77 firms") (strOf ""),
      m ≤ 77) ∧
    (estimateDataSize (strOf "Comprehensive supplier list of 77 firms")
      (strOf "") .PDF).1 = 77 :=
  ⟨by decide, by decide,
    estimated_rows_override _ _ _ _ (by decide) (by decide)⟩

/-! ### C8 and C9: relevance-score range and the custom-domain branch -/

/-- The keyword term is nonnegative. -/
theorem keywordTerm_nonneg (text target : Str) :
    0 ≤ keywordTerm text target := by
  simp only [keywordTerm]
  split
  · norm_num
  · apply le_min _ (by norm_num)
    positivity

/-- The keyword term is at most one. -/
theorem keywordTerm_le_one (text target : Str) :
    keywordTerm text target ≤ 1 := by
  simp only [keywordTerm]
  split
  · norm_num
  · exact min_le_right _ _

/-- The quality term is nonnegative. -/
theorem qualityTerm_nonneg (text : Str) : 0 ≤ qualityTerm text := by
  unfold qualityTerm
  apply le_min _ (by norm_num)
  positivity

/-- The quality term is at most one. -/
theorem qualityTerm_le_one (text : Str) : qualityTerm text ≤ 1 :=
  min_le_right _ _

/-- The India-context term is nonnegative. -/
theorem indiaTerm_nonneg (text : Str) : 0 ≤ indiaTerm text := by
  unfold indiaTerm
  split <;> norm_num

/-- The India-context term is at most one. -/
theorem indiaTerm_le_one (text : Str) : indiaTerm text ≤ 1 := by
  unfold indiaTerm
  split <;> norm_num

/-- The unrounded relevance sum lies in `[0, 1]`. -/
theorem relevanceRaw_bounds (title snippet target : Str) :
    0 ≤ relevanceRaw title snippet target ∧
      relevanceRaw title snippet target ≤ 1 := by
  unfold relevanceRaw
  have hk0 := keywordTerm_nonneg (tsText title snippet) target
  have hk1 := keywordTerm_le_one (tsText title snippet) target
  have hq0 := qualityTerm_nonneg (tsText title snippet)
  have hq1 := qualityTerm_le_one (tsText title snippet)
  have hi0 := indiaTerm_nonneg (tsText title snippet)
  have hi1 := indiaTerm_le_one (tsText title snippet)
  constructor <;> nlinarith

/-- C8: for every title, snippet (empty included) and target domain, the
relevance score lies in `[0, 1]` and is its own rounding to two decimal
places. -/
theorem relevance_bounds_round2 (title snippet target : Str) :
    0 ≤ calculateRelevance title snippet target ∧
    calculateRelevance title snippet target ≤ 1 ∧
    round2 (calculateRelevance title snippet target) =
      calculateRelevance title snippet target := by
  have hb := relevanceRaw_bounds title snippet target
  exact ⟨round2_nonneg hb.1, round2_le_one hb.2, round2_idem _⟩

/-- A lookup over an association list none of whose keys is `a` misses. -/
theorem lookup_eq_none_of_ne {β : Type} (l : List (Str × β)) (a : Str)
    (h : ∀ p ∈ l, p.1 ≠ a) : List.lookup a l = none := by
  induction l with
  | nil => rfl
  | cons p t ih =>
    obtain ⟨k, b⟩ := p
    have hk : k ≠ a := h (k, b) (List.mem_cons_self _ _)
    have hbeq : (a == k) = false := by
      rw [beq_eq_false_iff_ne]
      exact fun e => hk e.symm
    simp only [List.lookup, hbeq]
    exact ih (fun q hq => h q (List.mem_cons_of_mem _ hq))

/-- C9: for a target domain with no predefined keyword list, the
relevance computation takes the guarded branch — no division by the
keyword-list length happens — and the keyword term of the score is the
fixed neutral `0.5`. -/
theorem custom_domain_keyword_neutral (title snippet target : Str)
    (h : ∀ p ∈ domain_keywords, p.1 ≠ target) :
    keywordTerm (tsText title snippet) target = 0.5 ∧
    calculateRelevance title snippet target =
      round2 (0.5 * 0.5 + qualityTerm (tsText title snippet) * 0.3 +
        indiaTerm (tsText title snippet) * 0.2) := by
  have hnone : List.lookup target domain_keywords = none :=
    lookup_eq_none_of_ne _ _ h
  have hterm : keywordTerm (tsText title snippet) target = 0.5 := by
    simp [keywordTerm, hnone]
  refine ⟨hterm, ?_⟩
  simp only [calculateRelevance, relevanceRaw]
  rw [hterm]

/-- C9 witness: the ad-hoc domain `Custom_Domain` is not a key of the
keyword table, and an empty hit scored against it uses the neutral `0.5`
keyword term. -/
theorem custom_domain_keyword_neutral_witness :
    (∀ p ∈ domain_keywords, p.1 ≠ strOf "Custom_Domain") ∧
    (keywordTerm (tsText (strOf "") (strOf "")) (strOf "Custom_Domain") =
      0.5 ∧
    calculateRelevance (strOf "") (strOf "") (strOf "Custom_Domain") =
      round2 (0.5 * 0.5 + qualityTerm (tsText (strOf "") (strOf "")) * 0.3 +
        indiaTerm (tsText (strOf "") (strOf "")) * 0.2)) :=
  ⟨by decide, custom_domain_keyword_neutral (strOf "") (strOf "")
    (strOf "Custom_Domain") (by decide)⟩

/-! ### C7: the Filter's output is confidence-sorted and stable -/

/-- Domain deduplication returns a subsequence of its input. -/
theorem dedup_sublist : ∀ (l : List DataSourceAnalysis) (seen : List Str),
    (dedupByDomain l seen).Sublist l := by
  intro l
  induction l with
  | nil => intro seen; exact List.Sublist.refl _
  | cons r rs ih =>
    intro seen
    unfold dedupByDomain
    split
    · exact (ih seen).cons r
    · exact (ih (r.domain :: seen)).cons₂ r

/-- The stable sort leaves each confidence class exactly as it occurs in
the input. -/
theorem sortByConfDesc_filter_conf (l : List DataSourceAnalysis) (c : ℚ) :
    (sortByConfDesc l).filter (fun r => decide (r.confidence_score = c)) =
      l.filter (fun r => decide (r.confidence_score = c)) := by
  set p : DataSourceAnalysis → Bool :=
    fun r => decide (r.confidence_score = c) with hp
  have hclass : (l.filter p).Pairwise confGE := by
    apply List.pairwise_of_forall_mem_list
    intro a ha b hb
    have ha2 : a.confidence_score = c := by
      have := (List.mem_filter.mp ha).2
      rw [hp] at this
      exact of_decide_eq_true this
    have hb2 : b.confidence_score = c := by
      have := (List.mem_filter.mp hb).2
      rw [hp] at this
      exact of_decide_eq_true this
    unfold confGE
    rw [ha2, hb2]
  have hsub : (l.filter p).Sublist (List.insertionSort confGE l) :=
    List.sublist_insertionSort hclass (List.filter_sublist l)
  have hsub2 : ((l.filter p).filter p).Sublist
      ((List.insertionSort confGE l).filter p) := hsub.filter p
  have hidem : (l.filter p).filter p = l.filter p := by
    rw [List.filter_filter]
    congr 1
    funext a
    rw [Bool.and_self]
  rw [hidem] at hsub2
  have hperm : ((List.insertionSort confGE l).filter p).Perm (l.filter p) :=
    (List.perm_insertionSort confGE l).filter p
  exact ((hsub2.eq_of_length hperm.length_eq.symm).symm : _)

/-- C7: the Filter's output is sorted by confidence score in descending
order, and each confidence class of the output is a subsequence of the
same class of the input — equal-confidence records keep their original
relative order (stability). -/
theorem filterResults_sorted_desc_stable (l : List DataSourceAnalysis) :
    List.Pairwise
      (fun a b => b.confidence_score ≤ a.confidence_score)
      (filterResults l) ∧
    ∀ c : ℚ,
      ((filterResults l).filter
        (fun r => decide (r.confidence_score = c))).Sublist
      (l.filter (fun r => decide (r.confidence_score = c))) := by
  constructor
  · have hsorted : List.Sorted confGE
        (sortByConfDesc (minRelevanceFilter l)) :=
      List.sorted_insertionSort confGE (minRelevanceFilter l)
    exact List.Pairwise.sublist (dedup_sublist _ _) hsorted
  · intro c
    set p : DataSourceAnalysis → Bool :=
      fun r => decide (r.confidence_score = c)
    have h1 : ((filterResults l).filter p).Sublist
        ((sortByConfDesc (minRelevanceFilter l)).filter p) :=
      (dedup_sublist _ _).filter p
    have h2 : (sortByConfDesc (minRelevanceFilter l)).filter p =
        (minRelevanceFilter l).filter p :=
      sortByConfDesc_filter_conf _ c
    have h3 : ((minRelevanceFilter l).filter p).Sublist (l.filter p) :=
      (List.filter_sublist l).filter p
    rw [h2] at h1
    exact h1.trans h3

/-! ### C2: domain deduplication -/

/-- Once a domain is in `seen`, deduplication emits no record with it. -/
theorem dedup_countP_zero (d : Str) :
    ∀ (l : List DataSourceAnalysis) (seen : List Str), d ∈ seen →
    List.countP (fun r => decide (r.domain = d))
      (dedupByDomain l seen) = 0 := by
  intro l
  induction l with
  | nil => intro seen _; rfl
  | cons r rs ih =>
    intro seen hd
    unfold dedupByDomain
    split
    · exact ih seen hd
    · rename_i hnot
      have hne : r.domain ≠ d := fun e => hnot (e ▸ hd)
      rw [List.countP_cons]
      simp only [hne, decide_False, if_false, add_zero, decide_eq_true_eq]
      exact ih (r.domain :: seen) (List.mem_cons_of_mem _ hd)

/-- When domain `d` is not yet seen but occurs in the input,
deduplication emits exactly one record with it. -/
theorem dedup_countP_one (d : Str) :
    ∀ (l : List DataSourceAnalysis) (seen : List Str), d ∉ seen →
    (∃ r ∈ l, r.domain = d) →
    List.countP (fun r => decide (r.domain = d))
      (dedupByDomain l seen) = 1 := by
  intro l
  induction l with
  | nil =>
    intro seen _ hex
    simp at hex
  | cons r rs ih =>
    intro seen hd hex
    unfold dedupByDomain
    split
    · rename_i hmem
      apply ih seen hd
      rcases hex with ⟨x, hx, hxd⟩
      rcases List.mem_cons.mp hx with h | h
      · exact absurd (hxd ▸ (h ▸ hmem)) hd
      · exact ⟨x, h, hxd⟩
    · rename_i hmem
      rw [List.countP_cons]
      by_cases hrd : r.domain = d
      · have hz : List.countP (fun x => decide (x.domain = d))
            (dedupByDomain rs (r.domain :: seen)) = 0 :=
          dedup_countP_zero d rs (r.domain :: seen)
            (by rw [hrd]; exact List.mem_cons_self _ _)
        rw [hrd] at hz
        rw [hrd]
        simp [hz]
      · simp only [hrd, decide_False, if_false, add_zero]
        apply ih (r.domain :: seen) ?_ ?_
        · intro hmem2
          rcases List.mem_cons.mp hmem2 with h | h
          · exact hrd h.symm
          · exact hd h
        · rcases hex with ⟨x, hx, hxd⟩
          rcases List.mem_cons.mp hx with h | h
          · exact absurd (h ▸ hxd) hrd
          · exact ⟨x, h, hxd⟩

/-- For a domain not yet seen, deduplication keeps exactly the first
record of its input bearing that domain. -/
theorem dedup_find (d : Str) :
    ∀ (l : List DataSourceAnalysis) (seen : List Str), d ∉ seen →
    List.find? (fun r => decide (r.domain = d)) (dedupByDomain l seen) =
      List.find? (fun r => decide (r.domain = d)) l := by
  intro l
  induction l with
  | nil => intro seen _; rfl
  | cons r rs ih =>
    intro seen hd
    unfold dedupByDomain
    split
    · rename_i hmem
      have hne : r.domain ≠ d := fun e => hd (e ▸ hmem)
      rw [ih seen hd, List.find?_cons_of_neg]
      simp [hne]
    · rename_i hmem
      by_cases hrd : r.domain = d
      · rw [List.find?_cons_of_pos, List.find?_cons_of_pos] <;>
          simp [hrd]
      · rw [List.find?_cons_of_neg, List.find?_cons_of_neg]
        · apply ih (r.domain :: seen)
          intro hmem2
          rcases List.mem_cons.mp hmem2 with h | h
          · exact hrd h.symm
          · exact hd h
        · simp [hrd]
        · simp [hrd]

/-- C2 (amended): whenever some record passing the relevance threshold
carries domain `d`, the Filter's output contains exactly one record with
domain `d`, and it is the first record with that domain in the stable
descending-confidence ordering of the threshold-passing records — the
highest-confidence one, with input order breaking ties — not necessarily
the first in original input order. -/
theorem filter_dedup_keeps_sorted_first (l : List DataSourceAnalysis)
    (d : Str)
    (h : ∃ r ∈ l, r.domain = d ∧ (0.3 : ℚ) ≤ r.relevance_score) :
    List.countP (fun r => decide (r.domain = d)) (filterResults l) = 1 ∧
    List.find? (fun r => decide (r.domain = d)) (filterResults l) =
      List.find? (fun r => decide (r.domain = d))
        (sortByConfDesc (minRelevanceFilter l)) := by
  have hex : ∃ r ∈ sortByConfDesc (minRelevanceFilter l), r.domain = d := by
    obtain ⟨r, hr, hrd, hrel⟩ := h
    have h1 : r ∈ minRelevanceFilter l :=
      List.mem_filter.mpr ⟨hr, decide_eq_true hrel⟩
    exact ⟨r, (List.mem_insertionSort confGE).mpr h1, hrd⟩
  constructor
  · exact dedup_countP_one d _ [] (by simp) hex
  · exact dedup_find d _ [] (by simp)

/-- C2 counterexample: two threshold-passing records share a domain, yet
the Filter keeps the second of the two in input order (the
higher-confidence one), because deduplication runs after the confidence
sort — refuting "namely the first of the two in original input order". -/
theorem filter_dedup_not_input_first :
    recA.domain = recB.domain ∧
    (0.3 : ℚ) ≤ recA.relevance_score ∧
    (0.3 : ℚ) ≤ recB.relevance_score ∧
    filterResults [recA, recB] = [recB] ∧ recB ≠ recA := by
  have hpa : (decide ((0.3 : ℚ) ≤ recA.relevance_score)) = true :=
    decide_eq_true (by show (0.3 : ℚ) ≤ 1; norm_num)
  have hpb : (decide ((0.3 : ℚ) ≤ recB.relevance_score)) = true :=
    decide_eq_true (by show (0.3 : ℚ) ≤ 1; norm_num)
  have h1 : minRelevanceFilter [recA, recB] = [recA, recB] := by
    unfold minRelevanceFilter
    simp only [List.filter_cons, hpa, hpb, if_true, List.filter_nil]
  have hc : ¬ confGE recA recB := by
    show ¬ ((1 : ℚ) ≤ (0 : ℚ))
    norm_num
  have h2 : sortByConfDesc [recA, recB] = [recB, recA] := by
    unfold sortByConfDesc
    simp only [List.insertionSort, List.orderedInsert]
    rw [if_neg hc]
  have h3 : dedupByDomain [recB, recA] [] = [recB] := by
    unfold dedupByDomain
    rw [if_neg (by simp)]
    unfold dedupByDomain
    rw [if_pos (by decide : recA.domain ∈ [recB.domain])]
    rfl
  refine ⟨rfl, of_decide_eq_true hpa, of_decide_eq_true hpb, ?_, ?_⟩
  · unfold filterResults
    rw [h1, h2, h3]
  · intro h
    have h4 := congrArg DataSourceAnalysis.confidence_score h
    simp [recA, recB] at h4

/-- C2 witness: the amended statement applied to the concrete pair
`[recA, recB]` and domain `dup.com`. -/
theorem filter_dedup_keeps_sorted_first_witness :
    (∃ r ∈ [recA, recB], r.domain = strOf "dup.com" ∧
      (0.3 : ℚ) ≤ r.relevance_score) ∧
    (List.countP (fun r => decide (r.domain = strOf "dup.com"))
        (filterResults [recA, recB]) = 1 ∧
      List.find? (fun r => decide (r.domain = strOf "dup.com"))
          (filterResults [recA, recB]) =
        List.find? (fun r => decide (r.domain = strOf "dup.com"))
          (sortByConfDesc (minRelevanceFilter [recA, recB]))) :=
  have h : ∃ r ∈ [recA, recB], r.domain = strOf "dup.com" ∧
      (0.3 : ℚ) ≤ r.relevance_score :=
    ⟨recA, List.mem_cons_self _ _, rfl,
      by show (0.3 : ℚ) ≤ 1; norm_num⟩
  ⟨h, filter_dedup_keeps_sorted_first [recA, recB] (strOf "dup.com") h⟩

/-! ### C5: per-query failure isolation in `batch_search` -/

/-- C5: the batch report has exactly one entry per input query, every
entry is tagged with its query's id (all queries are processed), and a
query whose provider call fails yields an entry with `status = "error"`
carrying the raw error message — the model is a total function, so no
exception escapes the batch call. -/
theorem batchSearch_isolates_failures
    (exec : Str → Str → Except Str (Option SearchResults))
    (queries : List QueryInfo) (target : Str) :
    (batchSearch exec queries target).length = queries.length ∧
    (∀ (i : Nat) (qi : QueryInfo), queries[i]? = some qi →
      ((∃ res : QueryResult, (batchSearch exec queries target)[i]? = some res ∧
        res.query_id = some qi.query_id) ∧
      ∀ e : Str, exec qi.search_query (strOf "India") = .error e →
        ∃ res : QueryResult, (batchSearch exec queries target)[i]? = some res ∧
          res.status = some "error" ∧
          res.error_message = some e ∧
          res.query_id = some qi.query_id)) := by
  constructor
  · exact List.length_map _ _
  · intro i qi hqi
    have hb : (batchSearch exec queries target)[i]? =
        some { searchQuery exec qi.search_query target (strOf "India") with
          query_id := some qi.query_id
          prompt_template := some qi.prompt_template
          query_type := some qi.query_type } := by
      unfold batchSearch
      rw [List.getElem?_map, hqi, Option.map_some']
    constructor
    · exact ⟨_, hb, rfl⟩
    · intro e hexec
      refine ⟨_, hb, ?_, ?_, ?_⟩
      · simp [searchQuery, hexec, createErrorResult]
      · simp [searchQuery, hexec, createErrorResult]
      · simp

/-- C5 witness: in a concrete two-query batch whose second provider call
raises, the report still has one entry per query and the second entry is
the tagged error record. -/
theorem batchSearch_isolates_failures_witness :
    (batchSearch execW [qi1, qi2] (strOf "Shipping")).length =
      ([qi1, qi2] : List QueryInfo).length ∧
    ([qi1, qi2] : List QueryInfo)[1]? = some qi2 ∧
    execW qi2.search_query (strOf "India") =
      .error (strOf "transport down") ∧
    (∃ res : QueryResult, (batchSearch execW [qi1, qi2] (strOf "Shipping"))[1]? =
        some res ∧
      res.status = some "error" ∧
      res.error_message = some (strOf "transport down") ∧
      res.query_id = some qi2.query_id) :=
  ⟨(batchSearch_isolates_failures execW [qi1, qi2] (strOf "Shipping")).1,
    rfl, rfl,
    ((batchSearch_isolates_failures execW [qi1, qi2]
        (strOf "Shipping")).2 1 qi2 rfl).2 (strOf "transport down") rfl⟩
